import Mathlib

/-!
Shallow embedding of the real-time orchestration core of the Nebula-AI
dashboard (EventEmitter, RateLimiter, CircuitBreaker, response cache,
RealTimeAPIOrchestrator.fetchStreamData, alert manager, DynamicTabManager),
together with theorems settling the specification claims about it.

Machine times (`Date.now()`) are modelled as `Nat` milliseconds; JS numbers
used for confidences, error rates and token counts are modelled as `ℚ`.
Effects (event emission, alert creation, external fetches) are modelled as
explicit traces of actions returned by the embedded functions.
-/

namespace Nebula

/-! ### Event emitter (src/unnamed/part_006)

A listener is identified by an id; its observable behaviour during one
invocation is either to return normally (`throws = none`) or to throw
(`throws = some msg`).  `emit` iterates over a copy of the listener list,
invoking each listener in order; a throw is caught and, when the event
being emitted is not the reserved "error" event, re-published by a nested
`emit("error", ...)`; inside an emission of "error" itself a throw is
caught and only logged (no recursion). -/

structure Handler where
  id : Nat
  throws : Option String
deriving DecidableEq, Repr

/-- One observable step of `EventEmitter.emit`: listener `id` was invoked
while emitting event `event`. -/
inductive EmitAction where
  | invoked (id : Nat) (event : String)
deriving DecidableEq, Repr

/-- Trace of `EventEmitter.emit(event, ...)`: `listeners` is the copied
listener list for `event`, `errListeners` the listener list of the
reserved "error" event at that moment. -/
def emitTrace (errListeners : List Handler) (event : String)
    (listeners : List Handler) : List EmitAction :=
  listeners.flatMap fun h =>
    EmitAction.invoked h.id event ::
      (match h.throws with
       | none => []
       | some _ =>
         if event = "error" then []
         else errListeners.map fun g => EmitAction.invoked g.id "error")

/-- The ids invoked under a given event tag, in order of invocation. -/
def invokedIds (event : String) (tr : List EmitAction) : List Nat :=
  tr.filterMap fun a =>
    match a with
    | .invoked i e => if e = event then some i else none

/-- `EventEmitter` listener registry: the `events` map (extensionally, a
function from event name to its listener list) and `maxListeners`. -/
structure EmitterState where
  events : String → List Handler
  maxListeners : Nat

/-- `EventEmitter.on`: if the listener list for the event has already
reached `maxListeners`, warn and return `this` without registering;
otherwise push the listener at the end. -/
def EmitterState.on (s : EmitterState) (event : String) (h : Handler) : EmitterState :=
  let listeners := s.events event
  if s.maxListeners ≤ listeners.length then s
  else { s with events := fun e => if e = event then listeners ++ [h] else s.events e }

/-- `EventEmitter.prependListener`: same limit check, but the listener is
unshifted to the front. -/
def EmitterState.prependListener (s : EmitterState) (event : String) (h : Handler) :
    EmitterState :=
  let listeners := s.events event
  if s.maxListeners ≤ listeners.length then s
  else { s with events := fun e => if e = event then h :: listeners else s.events e }

section EmitLemmas

lemma emitTrace_cons (errListeners : List Handler) (event : String) (h : Handler)
    (t : List Handler) :
    emitTrace errListeners event (h :: t)
      = (EmitAction.invoked h.id event ::
          (match h.throws with
           | none => []
           | some _ =>
             if event = "error" then []
             else errListeners.map fun g => EmitAction.invoked g.id "error"))
        ++ emitTrace errListeners event t := rfl

lemma invokedIds_append (event : String) (a b : List EmitAction) :
    invokedIds event (a ++ b) = invokedIds event a ++ invokedIds event b := by
  simp [invokedIds, List.filterMap_append]

lemma invokedIds_nil (event : String) : invokedIds event [] = [] := rfl

lemma invokedIds_cons (event : String) (i : Nat) (e : String) (tr : List EmitAction) :
    invokedIds event (EmitAction.invoked i e :: tr)
      = if e = event then i :: invokedIds event tr else invokedIds event tr := by
  by_cases he : e = event
  · simp [invokedIds, List.filterMap_cons, he]
  · simp [invokedIds, List.filterMap_cons, he]

lemma invokedIds_self_map (event : String) (hs : List Handler) :
    invokedIds event (hs.map fun g => EmitAction.invoked g.id event) = hs.map (·.id) := by
  induction hs with
  | nil => rfl
  | cons g gs ih => simpa [invokedIds_cons] using ih

lemma invokedIds_ne_map (event e : String) (hne : ¬ (e = event)) (hs : List Handler) :
    invokedIds event (hs.map fun g => EmitAction.invoked g.id e) = [] := by
  induction hs with
  | nil => rfl
  | cons g gs ih => simpa [invokedIds_cons, hne] using ih

lemma invokedIds_emitTrace (event : String) (errListeners listeners : List Handler) :
    invokedIds event (emitTrace errListeners event listeners) = listeners.map (·.id) := by
  induction listeners with
  | nil => rfl
  | cons h t ih =>
    rw [emitTrace_cons, invokedIds_append, ih]
    cases hth : h.throws with
    | none => simp [invokedIds_cons, invokedIds_nil]
    | some e =>
      by_cases hev : event = "error"
      · simp [hev, invokedIds_cons, invokedIds_nil]
      · have hev2 : ¬ ("error" = event) := fun hc => hev hc.symm
        rw [if_neg hev, invokedIds_cons, if_pos rfl, invokedIds_ne_map event "error" hev2]
        simp

lemma invokedIds_error_emitTrace (event : String) (errListeners listeners : List Handler)
    (hev : event ≠ "error") :
    invokedIds "error" (emitTrace errListeners event listeners)
      = (listeners.filter (fun h => h.throws.isSome)).flatMap
          (fun _ => errListeners.map (·.id)) := by
  induction listeners with
  | nil => rfl
  | cons h t ih =>
    rw [emitTrace_cons, invokedIds_append, ih]
    cases hth : h.throws with
    | none => simp [invokedIds_cons, invokedIds_nil, hev, List.filter_cons, hth]
    | some e =>
      rw [if_neg hev, invokedIds_cons, if_neg hev, invokedIds_self_map]
      simp [List.filter_cons, hth, List.flatMap_cons]

lemma emitTrace_error (errListeners listeners : List Handler) :
    emitTrace errListeners "error" listeners
      = listeners.map (fun h => EmitAction.invoked h.id "error") := by
  induction listeners with
  | nil => rfl
  | cons h t ih =>
    rw [emitTrace_cons, ih]
    cases hth : h.throws <;> simp

end EmitLemmas

/-- C8: `EventEmitter.emit` invokes every listener subscribed to the event
at call time, synchronously and in subscription order (a throwing listener
does not prevent the rest); each throw during a non-"error" emission
re-publishes on the reserved "error" event (one nested emission per
throwing listener, delivered to every "error" listener); during an
emission of "error" itself a throw is not re-published, so a throwing
error-handler cannot cause infinite recursion. -/
theorem emit_invokes_all_and_guards_recursion (event : String)
    (errListeners listeners : List Handler) :
    invokedIds event (emitTrace errListeners event listeners) = listeners.map (·.id)
    ∧ (event ≠ "error" →
        invokedIds "error" (emitTrace errListeners event listeners)
          = (listeners.filter (fun h => h.throws.isSome)).flatMap
              (fun _ => errListeners.map (·.id)))
    ∧ (event = "error" →
        emitTrace errListeners event listeners
          = listeners.map (fun h => EmitAction.invoked h.id "error")) :=
  ⟨invokedIds_emitTrace event errListeners listeners,
   fun hev => invokedIds_error_emitTrace event errListeners listeners hev,
   fun hev => hev ▸ emitTrace_error errListeners listeners⟩

/-- Witness for C8 at a concrete input: three listeners on "data" (the
second throws), one "error" listener; all three run in order and the
"error" listener runs once. -/
theorem emit_invokes_all_and_guards_recursion_witness :
    invokedIds "data"
        (emitTrace [⟨9, none⟩] "data" [⟨1, none⟩, ⟨2, some "boom"⟩, ⟨3, none⟩])
      = [1, 2, 3]
    ∧ invokedIds "error"
        (emitTrace [⟨9, none⟩] "data" [⟨1, none⟩, ⟨2, some "boom"⟩, ⟨3, none⟩])
      = [9] := by
  have h := emit_invokes_all_and_guards_recursion "data"
    [⟨9, none⟩] [⟨1, none⟩, ⟨2, some "boom"⟩, ⟨3, none⟩]
  refine ⟨h.1, ?_⟩
  rw [h.2.1 (by decide)]
  decide

/-! ### Circuit breaker (src/unnamed/part_007, class CircuitBreaker)

State machine over `closed`/`opened`/`halfOpen` with consecutive-failure
counting.  `isOpen` is effectful in the source (it may flip `open` to
`half-open`); here it returns the boolean result together with the
post-call breaker. -/

inductive CBState where
  | closed
  | opened
  | halfOpen
deriving DecidableEq, Repr

structure CircuitBreaker where
  failureThreshold : Nat
  resetTimeout : Nat
  monitoringPeriod : Nat
  failures : Nat
  lastFailTime : Nat
  state : CBState
deriving DecidableEq, Repr

/-- Constructor: `failures = 0`, `lastFailTime = 0`, state `closed`. -/
def CircuitBreaker.new (failureThreshold resetTimeout monitoringPeriod : Nat) :
    CircuitBreaker :=
  { failureThreshold := failureThreshold, resetTimeout := resetTimeout,
    monitoringPeriod := monitoringPeriod,
    failures := 0, lastFailTime := 0, state := .closed }

/-- `recordSuccess()`: reset the failure count and force `closed`. -/
def CircuitBreaker.recordSuccess (cb : CircuitBreaker) : CircuitBreaker :=
  { cb with failures := 0, state := .closed }

/-- `recordFailure()`: bump the failure count, stamp `lastFailTime` with the
current clock, and open once the count reaches `failureThreshold`. -/
def CircuitBreaker.recordFailure (cb : CircuitBreaker) (now : Nat) : CircuitBreaker :=
  { cb with
    failures := cb.failures + 1,
    lastFailTime := now,
    state := if cb.failureThreshold ≤ cb.failures + 1 then .opened else cb.state }

/-- `isOpen()`: when `open`, flip to `half-open` and answer `false` once
strictly more than `resetTimeout` ms have passed since the last failure
(`Date.now() - lastFailTime > resetTimeout` in the source); otherwise
answer `true`.  In any other state answer `false`. -/
def CircuitBreaker.isOpen (cb : CircuitBreaker) (now : Nat) : Bool × CircuitBreaker :=
  if cb.state = .opened then
    if cb.resetTimeout < now - cb.lastFailTime then
      (false, { cb with state := .halfOpen })
    else (true, cb)
  else (false, cb)

section BreakerLemmas

lemma recordFailure_foldl_const (ts : List Nat) (cb : CircuitBreaker) :
    (ts.foldl CircuitBreaker.recordFailure cb).failureThreshold = cb.failureThreshold
    ∧ (ts.foldl CircuitBreaker.recordFailure cb).resetTimeout = cb.resetTimeout := by
  induction ts generalizing cb with
  | nil => exact ⟨rfl, rfl⟩
  | cons t ts ih => simpa [CircuitBreaker.recordFailure] using ih _

lemma recordFailure_foldl_failures (ts : List Nat) (cb : CircuitBreaker) :
    (ts.foldl CircuitBreaker.recordFailure cb).failures = cb.failures + ts.length := by
  induction ts generalizing cb with
  | nil => simp
  | cons t ts ih =>
    simp only [List.foldl_cons, ih, CircuitBreaker.recordFailure, List.length_cons]
    omega

lemma recordFailure_foldl_lastFail (ts : List Nat) (cb : CircuitBreaker) (h : ts ≠ []) :
    (ts.foldl CircuitBreaker.recordFailure cb).lastFailTime = ts.getLast h := by
  induction ts generalizing cb with
  | nil => exact absurd rfl h
  | cons t ts ih =>
    cases ts with
    | nil => simp [CircuitBreaker.recordFailure]
    | cons t2 ts2 =>
      rw [List.foldl_cons, ih (cb.recordFailure t) (by simp)]
      exact (List.getLast_cons (by simp)).symm

lemma recordFailure_foldl_state (ts : List Nat) (cb : CircuitBreaker) (h : ts ≠ [])
    (hth : cb.failureThreshold ≤ cb.failures + ts.length) :
    (ts.foldl CircuitBreaker.recordFailure cb).state = .opened := by
  induction ts generalizing cb with
  | nil => exact absurd rfl h
  | cons t ts ih =>
    cases ts with
    | nil =>
      simp only [List.length_cons, List.length_nil] at hth
      show (cb.recordFailure t).state = CBState.opened
      simp only [CircuitBreaker.recordFailure]
      exact if_pos (by omega)
    | cons t2 ts2 =>
      refine ih (cb.recordFailure t) (by simp) ?_
      simp only [CircuitBreaker.recordFailure, List.length_cons] at hth ⊢
      omega

end BreakerLemmas

/-- C2 (amended): from a fresh breaker with `failureThreshold ≥ 1`, after a
sequence of `recordFailure()` calls of length ≥ `failureThreshold` with no
intervening `recordSuccess()`, the breaker is `open`; `isOpen()` keeps
answering `true` (leaving the breaker open) while at most `resetTimeoutMs`
have elapsed since the last recorded failure, and answers `false` with the
state flipped to `half-open` as soon as strictly more than `resetTimeoutMs`
have elapsed; from `half-open`, `recordFailure()` returns the breaker to
`open`, and `recordSuccess()` returns it to `closed` with the failure
count reset to zero. -/
theorem breaker_trip_and_recovery (ft rt mp : Nat) (ts : List Nat)
    (hft : 1 ≤ ft) (hne : ts ≠ []) (hcount : ft ≤ ts.length) :
    (ts.foldl CircuitBreaker.recordFailure (CircuitBreaker.new ft rt mp)).state = .opened
    ∧ (∀ now,
        now - ts.getLast hne ≤ rt →
        (ts.foldl CircuitBreaker.recordFailure (CircuitBreaker.new ft rt mp)).isOpen now
          = (true, ts.foldl CircuitBreaker.recordFailure (CircuitBreaker.new ft rt mp)))
    ∧ (∀ now,
        rt < now - ts.getLast hne →
        ((ts.foldl CircuitBreaker.recordFailure (CircuitBreaker.new ft rt mp)).isOpen now).1
            = false
          ∧ ((ts.foldl CircuitBreaker.recordFailure (CircuitBreaker.new ft rt mp)).isOpen
              now).2.state = .halfOpen)
    ∧ (∀ now,
        (CircuitBreaker.recordFailure
          { ts.foldl CircuitBreaker.recordFailure (CircuitBreaker.new ft rt mp) with
            state := .halfOpen } now).state = .opened)
    ∧ (CircuitBreaker.recordSuccess
        { ts.foldl CircuitBreaker.recordFailure (CircuitBreaker.new ft rt mp) with
          state := .halfOpen }).state = .closed
    ∧ (CircuitBreaker.recordSuccess
        { ts.foldl CircuitBreaker.recordFailure (CircuitBreaker.new ft rt mp) with
          state := .halfOpen }).failures = 0 := by
  have hstate : (ts.foldl CircuitBreaker.recordFailure (CircuitBreaker.new ft rt mp)).state
      = .opened :=
    recordFailure_foldl_state ts _ hne (by simpa [CircuitBreaker.new] using hcount)
  have hlast : (ts.foldl CircuitBreaker.recordFailure (CircuitBreaker.new ft rt mp)).lastFailTime
      = ts.getLast hne := recordFailure_foldl_lastFail ts _ hne
  have hconst := recordFailure_foldl_const ts (CircuitBreaker.new ft rt mp)
  have hfail : (ts.foldl CircuitBreaker.recordFailure (CircuitBreaker.new ft rt mp)).failures
      = ts.length := by
    simpa [CircuitBreaker.new] using recordFailure_foldl_failures ts (CircuitBreaker.new ft rt mp)
  have hrt : (ts.foldl CircuitBreaker.recordFailure (CircuitBreaker.new ft rt mp)).resetTimeout
      = rt := by simpa [CircuitBreaker.new] using hconst.2
  have hth : (ts.foldl CircuitBreaker.recordFailure (CircuitBreaker.new ft rt mp)).failureThreshold
      = ft := by simpa [CircuitBreaker.new] using hconst.1
  refine ⟨hstate, ?_, ?_, ?_, ?_, ?_⟩
  · intro now hnow
    simp [CircuitBreaker.isOpen, hstate, hlast, hrt, Nat.not_lt.mpr hnow]
  · intro now hnow
    constructor <;> simp [CircuitBreaker.isOpen, hstate, hlast, hrt, hnow]
  · intro now
    have hcond : (ts.foldl CircuitBreaker.recordFailure (CircuitBreaker.new ft rt mp)).failureThreshold
        ≤ (ts.foldl CircuitBreaker.recordFailure (CircuitBreaker.new ft rt mp)).failures + 1 := by
      rw [hfail, hth]; omega
    simp [CircuitBreaker.recordFailure, hcond]
  · rfl
  · rfl

/-- Witness for C2 at a concrete input: `failureThreshold = 1`,
`resetTimeoutMs = 100`, one failure at `t = 5`; `isOpen` is still `true`
at `t = 105` (elapsed 100) and `false` at `t = 206` (elapsed 201). -/
theorem breaker_trip_and_recovery_witness :
    ([5].foldl CircuitBreaker.recordFailure (CircuitBreaker.new 1 100 300)).state
        = CBState.opened
    ∧ (([5].foldl CircuitBreaker.recordFailure (CircuitBreaker.new 1 100 300)).isOpen 105).1
        = true
    ∧ (([5].foldl CircuitBreaker.recordFailure (CircuitBreaker.new 1 100 300)).isOpen 206).1
        = false := by
  have h := breaker_trip_and_recovery 1 100 300 [5] (by decide) (by decide) (by decide)
  refine ⟨h.1, ?_, (h.2.2.1 206 (by decide)).1⟩
  rw [h.2.1 105 (by decide)]

/-- Counterexample to C2 as stated: with `failureThreshold = 1` and
`resetTimeoutMs = 100`, after a failure recorded at `t = 0`, at `t = 100`
exactly `resetTimeoutMs` have elapsed, yet `isOpen()` still returns `true`
(the source flips to half-open only for `elapsed > resetTimeout`, strictly),
contradicting the claim that once `resetTimeoutMs` has elapsed the next
`isOpen()` call returns `false`. -/
theorem breaker_boundary_counterexample :
    ((CircuitBreaker.new 1 100 300).recordFailure 0).isOpen 100
      = (true, (CircuitBreaker.new 1 100 300).recordFailure 0)
    ∧ (100 : Nat) - ((CircuitBreaker.new 1 100 300).recordFailure 0).lastFailTime = 100 := by
  constructor <;> decide

/-! ### Orchestrator data model (src/unnamed/part_007) -/

inductive Priority where
  | critical
  | high
  | medium
  | low
deriving DecidableEq, Repr

inductive Quality where
  | good
  | poor
  | bad
deriving DecidableEq, Repr

inductive AlertLevel where
  | info
  | warning
  | critical
  | emergency
deriving DecidableEq, Repr

/-- `TelemetryData`: one fetched data point; the opaque `payload` blob is
modelled as a string. -/
structure TelemetryData where
  timestamp : Nat
  source : String
  dataType : String
  payload : String
  quality : Quality
  confidence : ℚ
deriving DecidableEq, Repr

structure AlertThresholds where
  responseTime : Nat
  errorRate : ℚ
  dataAgeLimit : Nat
deriving DecidableEq, Repr

structure DataStreamConfig where
  id : String
  priority : Priority
  updateFrequency : Nat
  maxRetries : Nat
  healthCheckInterval : Nat
  alertThresholds : AlertThresholds
deriving DecidableEq, Repr

/-- `StreamHealth`: mutable per-stream runtime state. -/
structure StreamHealth where
  isActive : Bool
  dataFreshness : Nat
  throughput : ℚ
  errorCount : Nat
  lastDataReceived : Nat
deriving DecidableEq, Repr

/-- `CachedData`: entry of the orchestrator's `dataCache`. -/
structure CachedData where
  data : TelemetryData
  timestamp : Nat
  expiryTime : Nat
deriving DecidableEq, Repr

/-- The three critical streams registered by `initializeCriticalStreams`. -/
def issStreamConfig : DataStreamConfig :=
  { id := "iss-position", priority := .critical, updateFrequency := 2000,
    maxRetries := 5, healthCheckInterval := 10000,
    alertThresholds := { responseTime := 3000, errorRate := 5/100, dataAgeLimit := 10000 } }

def activeSatellitesStreamConfig : DataStreamConfig :=
  { id := "active-satellites", priority := .high, updateFrequency := 5000,
    maxRetries := 3, healthCheckInterval := 30000,
    alertThresholds := { responseTime := 5000, errorRate := 10/100, dataAgeLimit := 30000 } }

def earthImageryStreamConfig : DataStreamConfig :=
  { id := "earth-imagery", priority := .medium, updateFrequency := 30000,
    maxRetries := 2, healthCheckInterval := 60000,
    alertThresholds := { responseTime := 10000, errorRate := 15/100, dataAgeLimit := 120000 } }

/-- `registerDataStream`: initial `StreamHealth` for a freshly registered
stream (`isActive` becomes true in `startDataStream`). -/
def initialStreamHealth (now : Nat) : StreamHealth :=
  { isActive := false, dataFreshness := 0, throughput := 0, errorCount := 0,
    lastDataReceived := now }

/-- The `TelemetryData` constructed by `fetchEarthImagery` on success. -/
def fetchEarthImageryData (now : Nat) (payload : String) : TelemetryData :=
  { timestamp := now, source := "nasa", dataType := "earth_imagery", payload := payload,
    quality := .good, confidence := 95/100 }

/-- The `TelemetryData` constructed by `fetchISSPosition` on success;
`hasPositions` records whether the N2YO response carried a nonempty
`positions` array. -/
def fetchISSPositionData (now : Nat) (payload : String) (hasPositions : Bool) :
    TelemetryData :=
  { timestamp := now, source := "n2yo", dataType := "satellite_position", payload := payload,
    quality := if hasPositions then .good else .poor,
    confidence := if hasPositions then 98/100 else 50/100 }

/-- The `TelemetryData` constructed by `fetchActiveSatellites` on success. -/
def fetchActiveSatellitesData (now : Nat) (payload : String) : TelemetryData :=
  { timestamp := now, source := "n2yo", dataType := "satellite_constellation",
    payload := payload, quality := .good, confidence := 92/100 }

/-! ### Rate limiter (src/unnamed/part_007, class RateLimiter)

Token bucket; defined here because the source defines it, and the C1
analysis is precisely that the orchestrator never calls `waitForToken`. -/

structure RateLimiter where
  tokens : ℚ
  maxTokens : ℚ
  refillRate : ℚ
  lastRefill : Nat
deriving DecidableEq, Repr

/-- Constructor: capacity is a 10-second buffer of the sustained rate. -/
def RateLimiter.new (requestsPerSecond : ℚ) (now : Nat) : RateLimiter :=
  { tokens := requestsPerSecond * 10, maxTokens := requestsPerSecond * 10,
    refillRate := requestsPerSecond, lastRefill := now }

/-- `refillTokens()`: continuous refill from elapsed wall-clock time. -/
def RateLimiter.refillTokens (rl : RateLimiter) (now : Nat) : RateLimiter :=
  { rl with
    tokens := min rl.maxTokens (rl.tokens + ((now - rl.lastRefill : Nat) : ℚ) / 1000 * rl.refillRate),
    lastRefill := now }

/-- One step of `waitForToken()`: refill, then either consume a token or
report the delay before retrying. -/
inductive TokenStep where
  | acquired (rl : RateLimiter)
  | waitRetry (waitMs : ℚ)
deriving DecidableEq, Repr

def RateLimiter.waitForTokenStep (rl : RateLimiter) (now : Nat) : TokenStep :=
  let r := rl.refillTokens now
  if r.tokens < 1 then .waitRetry (1 / r.refillRate * 1000)
  else .acquired { r with tokens := r.tokens - 1 }

/-! ### fetchStreamData (src/unnamed/part_007, lines 362-441)

The external fetch is a collaborator; its result is an explicit
`FetchOutcome` parameter (`duration` is the elapsed wall-clock time of the
await, so `Date.now()` after the fetch is `now + duration`).  Emissions
and alert creations are returned as a trace of actions.  The orchestrator
never consults its `rateLimiters` map inside `fetchStreamData` (the
`Action.tokenAcquired` constructor exists so that this absence is
expressible). -/

inductive Action where
  | tokenAcquired (api : String)
  | fetchCalled (streamId : String)
  | emitUpdate (event : String) (data : TelemetryData)
  | emitError (event : String) (retryable : Bool)
  | emitTelemetry (streamId : String) (responseTime : Nat)
  | alertCreated (level : AlertLevel) (message source : String)
deriving DecidableEq, Repr

inductive FetchOutcome where
  | success (data : TelemetryData) (duration : Nat)
  | failure (errMsg : String) (duration : Nat)
deriving DecidableEq, Repr

structure StreamTickResult where
  breaker : CircuitBreaker
  health : StreamHealth
  cache : Option CachedData
  trace : List Action
deriving DecidableEq, Repr

/-- `cacheData`: store with a 5-minute expiry. -/
def cacheData (data : TelemetryData) (now : Nat) : CachedData :=
  { data := data, timestamp := now, expiryTime := now + 300000 }

/-- `calculateThroughput`: data points per second from the age of the
cached entry. -/
def calculateThroughput (cache : Option CachedData) (now : Nat) : ℚ :=
  match cache with
  | none => 0
  | some cd => if 0 < now - cd.timestamp then 1000 / ((now - cd.timestamp : Nat) : ℚ) else 0

/-- The degraded copy emitted when a payload is served from cache:
quality forced to `poor`, confidence multiplied by 0.7. -/
def discountCached (d : TelemetryData) : TelemetryData :=
  { d with quality := .poor, confidence := d.confidence * (7/10) }

/-- `useCachedData`: re-emit the unexpired cached payload at reduced
confidence, or create a warning alert when no valid cached data exists. -/
def useCachedData (streamId : String) (cache : Option CachedData) (now : Nat) :
    List Action :=
  match cache with
  | some cd =>
    if now < cd.expiryTime then
      [.emitUpdate (streamId ++ "-update") (discountCached cd.data)]
    else
      [.alertCreated .warning ("No cached data available for " ++ streamId) streamId]
  | none => [.alertCreated .warning ("No cached data available for " ++ streamId) streamId]

/-- `handleStreamError`: bump the error count again, create a priority-based
alert, then fall back to cached data. -/
def handleStreamError (config : DataStreamConfig) (sh : StreamHealth)
    (cache : Option CachedData) (errMsg : String) (now : Nat) :
    StreamHealth × List Action :=
  ({ sh with errorCount := sh.errorCount + 1 },
   .alertCreated (if config.priority = .critical then .critical else .warning)
       ("Stream error in " ++ config.id ++ ": " ++ errMsg) config.id
     :: useCachedData config.id cache now)

/-- `fetchStreamData`: one poll tick for a stream. -/
def fetchStreamData (config : DataStreamConfig) (cb : CircuitBreaker) (sh : StreamHealth)
    (cache : Option CachedData) (now : Nat) (outcome : FetchOutcome) : StreamTickResult :=
  let checked := cb.isOpen now
  if checked.1 then
    { breaker := checked.2, health := sh, cache := cache,
      trace := useCachedData config.id cache now }
  else
    match outcome with
    | .success data duration =>
      let after := now + duration
      let responseTime := duration
      let sh1 : StreamHealth :=
        { isActive := sh.isActive,
          dataFreshness := after - data.timestamp,
          throughput := calculateThroughput cache after,
          errorCount := 0,
          lastDataReceived := after }
      { breaker := checked.2.recordSuccess,
        health := sh1,
        cache := some (cacheData data after),
        trace := Action.fetchCalled config.id
          :: ((if config.alertThresholds.responseTime < responseTime then
                [Action.alertCreated .warning
                  ("High response time for " ++ config.id ++ ": "
                    ++ toString responseTime ++ "ms") config.id]
              else [])
            ++ [Action.emitUpdate (config.id ++ "-update") data,
                Action.emitTelemetry config.id responseTime]) }
    | .failure errMsg duration =>
      let after := now + duration
      let sh1 : StreamHealth := { sh with errorCount := sh.errorCount + 1 }
      let handled := handleStreamError config sh1 cache errMsg after
      { breaker := checked.2.recordFailure after,
        health := handled.1,
        cache := cache,
        trace := Action.fetchCalled config.id
          :: Action.emitError (config.id ++ "-error")
              (decide (sh1.errorCount < config.maxRetries))
          :: handled.2 }

/-- C1: evaluation of `fetchStreamData` at a live-fetch tick.  The trace
contains the external call but no token acquisition: `fetchStreamData`
goes straight from the circuit-breaker check to the fetch, and
`RateLimiter.waitForToken` is never invoked anywhere in the orchestrator
(the `rateLimiters` map and `getRateLimiter` helper are dead code), so the
fetch is made without consuming a rate-limit token, contrary to the claim. -/
theorem fetch_made_without_rate_limit_token :
    Action.fetchCalled "iss-position"
        ∈ (fetchStreamData issStreamConfig (CircuitBreaker.new 5 60000 300000)
            { initialStreamHealth 0 with isActive := true } none 0
            (.success (fetchISSPositionData 100 "payload" true) 100)).trace
    ∧ ∀ api, Action.tokenAcquired api
        ∉ (fetchStreamData issStreamConfig (CircuitBreaker.new 5 60000 300000)
            { initialStreamHealth 0 with isActive := true } none 0
            (.success (fetchISSPositionData 100 "payload" true) 100)).trace := by
  have htr : (fetchStreamData issStreamConfig (CircuitBreaker.new 5 60000 300000)
      { initialStreamHealth 0 with isActive := true } none 0
      (.success (fetchISSPositionData 100 "payload" true) 100)).trace
      = [Action.fetchCalled "iss-position",
         Action.emitUpdate ("iss-position" ++ "-update") (fetchISSPositionData 100 "payload" true),
         Action.emitTelemetry "iss-position" 100] := by
    simp [fetchStreamData, CircuitBreaker.isOpen, CircuitBreaker.new, issStreamConfig]
  rw [htr]
  refine ⟨by simp, fun api => by simp⟩

/-! ### Poll-tick scheduling (src/unnamed/part_007, startDataStream, lines 333-359)

`startDataStream` registers the async callback
`() => this.fetchStreamData(streamId, config)` directly with
`setInterval(·, config.updateFrequency)`.  `setInterval` starts the
callback at every multiple of the interval regardless of whether a
previous invocation's promise has settled, and the callback contains no
in-flight/busy check, so an invocation started at tick `k` is in flight
during `[k·interval, k·interval + fetchDuration)`. -/

def tickStart (updateFrequency k : Nat) : Nat := k * updateFrequency

/-- Tick `k`'s invocation of `fetchStreamData` is in flight at instant `t`
when every fetch takes `fetchDuration` ms. -/
def tickInFlight (updateFrequency fetchDuration k t : Nat) : Prop :=
  tickStart updateFrequency k ≤ t ∧ t < tickStart updateFrequency k + fetchDuration

/-- C3: evaluation of the tick schedule at a failing input.  For the
`iss-position` stream (`updateFrequency = 2000` ms) with a fetch that
takes 3000 ms, the invocations started at ticks 1 and 2 are both in
flight at `t = 4500` ms: nothing in `startDataStream`/`fetchStreamData`
skips or delays a tick while a previous fetch is pending, contrary to the
claim. -/
theorem overlapping_poll_ticks_when_fetch_outlasts_interval :
    tickInFlight issStreamConfig.updateFrequency 3000 1 4500
    ∧ tickInFlight issStreamConfig.updateFrequency 3000 2 4500
    ∧ (1 : Nat) ≠ 2 := by
  norm_num [tickInFlight, tickStart, issStreamConfig]

section DiscountLemmas

lemma discountCached_lt (d : TelemetryData) (hd : 0 < d.confidence) :
    (discountCached d).confidence < d.confidence := by
  have h := mul_lt_mul_of_pos_left (show (7 : ℚ)/10 < 1 by norm_num) hd
  simpa [discountCached, mul_one] using h

lemma discountCached_quality (d : TelemetryData) :
    (discountCached d).quality = .poor := rfl

end DiscountLemmas

/-- C4: whenever the circuit breaker reports open at the start of a poll
tick, `fetchStreamData` performs no live fetch; if an unexpired cached
payload exists it is re-emitted on `id ++ "-update"` with quality `poor`
and strictly reduced confidence, and otherwise a warning alert
("No cached data available for ...") is created; the tick returns
normally in both cases (the function is total, so no exception reaches the
caller). -/
theorem breaker_open_tick_serves_cache_or_alerts
    (config : DataStreamConfig) (cb : CircuitBreaker) (sh : StreamHealth)
    (cache : Option CachedData) (now : Nat) (outcome : FetchOutcome)
    (hopen : (cb.isOpen now).1 = true) :
    (∀ s, Action.fetchCalled s ∉ (fetchStreamData config cb sh cache now outcome).trace)
    ∧ (∀ cd, cache = some cd → now < cd.expiryTime →
        (fetchStreamData config cb sh cache now outcome).trace
          = [.emitUpdate (config.id ++ "-update") (discountCached cd.data)]
        ∧ (discountCached cd.data).quality ≠ .good
        ∧ (0 < cd.data.confidence →
            (discountCached cd.data).confidence < cd.data.confidence))
    ∧ ((∀ cd, cache = some cd → cd.expiryTime ≤ now) →
        (fetchStreamData config cb sh cache now outcome).trace
          = [.alertCreated .warning ("No cached data available for " ++ config.id)
              config.id]) := by
  have htr : (fetchStreamData config cb sh cache now outcome).trace
      = useCachedData config.id cache now := by
    simp [fetchStreamData, hopen]
  refine ⟨?_, ?_, ?_⟩
  · intro s
    rw [htr]
    cases cache with
    | none => simp [useCachedData]
    | some cd =>
      by_cases hexp : now < cd.expiryTime <;> simp [useCachedData, hexp]
  · intro cd hcd hexp
    subst hcd
    refine ⟨?_, by simp [discountCached_quality], discountCached_lt cd.data⟩
    rw [htr]
    simp [useCachedData, hexp]
  · intro hmiss
    rw [htr]
    cases cache with
    | none => simp [useCachedData]
    | some cd =>
      have hexp : ¬ (now < cd.expiryTime) := Nat.not_lt.mpr (hmiss cd rfl)
      simp [useCachedData, hexp]

/-- Witness for C4 at a concrete input: breaker opened by a failure at
`t = 1000` (threshold 1), tick at `t = 2000`, fresh cache entry. -/
theorem breaker_open_tick_serves_cache_or_alerts_witness :
    (fetchStreamData issStreamConfig
        ((CircuitBreaker.new 1 60000 300000).recordFailure 1000)
        { initialStreamHealth 0 with isActive := true }
        (some ⟨fetchISSPositionData 900 "p" true, 1000, 301000⟩) 2000
        (.failure "network" 0)).trace
      = [.emitUpdate ("iss-position" ++ "-update")
          (discountCached (fetchISSPositionData 900 "p" true))]
    ∧ (discountCached (fetchISSPositionData 900 "p" true)).quality ≠ Quality.good
    ∧ (discountCached (fetchISSPositionData 900 "p" true)).confidence
        < (fetchISSPositionData 900 "p" true).confidence := by
  have h := breaker_open_tick_serves_cache_or_alerts issStreamConfig
    ((CircuitBreaker.new 1 60000 300000).recordFailure 1000)
    { initialStreamHealth 0 with isActive := true }
    (some ⟨fetchISSPositionData 900 "p" true, 1000, 301000⟩) 2000
    (.failure "network" 0) (by decide)
  have h2 := h.2.1 ⟨fetchISSPositionData 900 "p" true, 1000, 301000⟩ rfl (by decide)
  exact ⟨h2.1, h2.2.1, h2.2.2 (by norm_num [fetchISSPositionData])⟩

/-- C5 (amended): on every failed poll tick that reaches the live fetch,
the stream's `errorCount` increases by exactly two — once in the `catch`
block of `fetchStreamData` and once more inside `handleStreamError` —, a
`id ++ "-error"` event is published whose `retryable` field is computed
from the intermediate count (original + 1), and an alert is created at
level `critical` when the stream's priority is `critical` and `warning`
otherwise. -/
theorem failed_tick_error_handling
    (config : DataStreamConfig) (cb : CircuitBreaker) (sh : StreamHealth)
    (cache : Option CachedData) (now : Nat) (errMsg : String) (d : Nat)
    (hclosed : (cb.isOpen now).1 = false) :
    (fetchStreamData config cb sh cache now (.failure errMsg d)).health.errorCount
        = sh.errorCount + 2
    ∧ Action.emitError (config.id ++ "-error")
          (decide (sh.errorCount + 1 < config.maxRetries))
        ∈ (fetchStreamData config cb sh cache now (.failure errMsg d)).trace
    ∧ Action.alertCreated (if config.priority = .critical then .critical else .warning)
          ("Stream error in " ++ config.id ++ ": " ++ errMsg) config.id
        ∈ (fetchStreamData config cb sh cache now (.failure errMsg d)).trace := by
  have hres : fetchStreamData config cb sh cache now (.failure errMsg d)
      = { breaker := (cb.isOpen now).2.recordFailure (now + d),
          health := { sh with errorCount := sh.errorCount + 1 + 1 },
          cache := cache,
          trace := Action.fetchCalled config.id
            :: Action.emitError (config.id ++ "-error")
                (decide (sh.errorCount + 1 < config.maxRetries))
            :: Action.alertCreated
                (if config.priority = .critical then .critical else .warning)
                ("Stream error in " ++ config.id ++ ": " ++ errMsg) config.id
            :: useCachedData config.id cache (now + d) } := by
    simp [fetchStreamData, hclosed, handleStreamError]
  rw [hres]
  refine ⟨rfl, by simp, by simp⟩

/-- Witness for C5 at a concrete input: first failing tick of the
`iss-position` stream starting from `errorCount = 0`. -/
theorem failed_tick_error_handling_witness :
    (fetchStreamData issStreamConfig (CircuitBreaker.new 5 60000 300000)
        { initialStreamHealth 0 with isActive := true } none 0
        (.failure "boom" 10)).health.errorCount = 0 + 2
    ∧ Action.emitError ("iss-position" ++ "-error") (decide ((0 : Nat) + 1 < 5))
        ∈ (fetchStreamData issStreamConfig (CircuitBreaker.new 5 60000 300000)
            { initialStreamHealth 0 with isActive := true } none 0
            (.failure "boom" 10)).trace
    ∧ Action.alertCreated (if issStreamConfig.priority = .critical then .critical else .warning)
          ("Stream error in " ++ "iss-position" ++ ": " ++ "boom") "iss-position"
        ∈ (fetchStreamData issStreamConfig (CircuitBreaker.new 5 60000 300000)
            { initialStreamHealth 0 with isActive := true } none 0
            (.failure "boom" 10)).trace := by
  have h := failed_tick_error_handling issStreamConfig (CircuitBreaker.new 5 60000 300000)
    { initialStreamHealth 0 with isActive := true } none 0 "boom" 10 (by decide)
  exact h

/-- Counterexample to C5 as stated: on a single failed tick starting from
`errorCount = 0`, the resulting count is 2, not 1 (the catch block and
`handleStreamError` both increment it). -/
theorem failed_tick_increments_twice_counterexample :
    (fetchStreamData issStreamConfig (CircuitBreaker.new 5 60000 300000)
        { initialStreamHealth 0 with isActive := true } none 0
        (.failure "boom" 10)).health.errorCount = 2
    ∧ (fetchStreamData issStreamConfig (CircuitBreaker.new 5 60000 300000)
        { initialStreamHealth 0 with isActive := true } none 0
        (.failure "boom" 10)).health.errorCount ≠ 0 + 1 := by
  constructor <;> decide

/-- C7: every payload served from cache (`useCachedData` is the single
code path, used both when the breaker is open and as the fetch-failure
fallback) is emitted with `quality = poor` (hence not `good`) and
confidence multiplied by 0.7, which is strictly below the stored
confidence whenever the stored confidence is positive; and every
`TelemetryData` the three fetchers store in the cache has positive
confidence (0.95, 0.98 or 0.5, and 0.92 respectively). -/
theorem cached_payload_confidence_discount :
    (∀ now payload, 0 < (fetchEarthImageryData now payload).confidence)
    ∧ (∀ now payload hasPositions,
        0 < (fetchISSPositionData now payload hasPositions).confidence)
    ∧ (∀ now payload, 0 < (fetchActiveSatellitesData now payload).confidence)
    ∧ (∀ d : TelemetryData, 0 < d.confidence →
        (discountCached d).confidence < d.confidence
        ∧ (discountCached d).quality ≠ .good) := by
  refine ⟨fun now payload => by norm_num [fetchEarthImageryData],
    fun now payload hasPositions => ?_,
    fun now payload => by norm_num [fetchActiveSatellitesData],
    fun d hd => ⟨discountCached_lt d hd, by simp [discountCached_quality]⟩⟩
  cases hasPositions <;> norm_num [fetchISSPositionData]

/-- Witness for C7 at a concrete input: the ISS payload with confidence
0.98, served from cache at confidence 0.686. -/
theorem cached_payload_confidence_discount_witness :
    (discountCached (fetchISSPositionData 0 "p" true)).confidence
        < (fetchISSPositionData 0 "p" true).confidence
    ∧ (discountCached (fetchISSPositionData 0 "p" true)).quality ≠ Quality.good := by
  exact cached_payload_confidence_discount.2.2.2 (fetchISSPositionData 0 "p" true)
    (by norm_num [fetchISSPositionData])

/-! ### Alerts (src/unnamed/part_007, createAlert, lines 793-833)

`createAlert` builds the full alert (`acknowledged = false`,
`autoResolve = (level !== 'emergency')`), pushes it onto
`systemHealth.alerts`, trims the buffer to the last 50 entries, and — only
for `autoResolve` alerts — schedules a 5-minute (300000 ms) timeout that
looks the alert up by id in the buffer and, if still present, sets its
`acknowledged` flag.  The generated unique id is passed in explicitly
here. -/

structure Alert where
  id : String
  level : AlertLevel
  message : String
  timestamp : Nat
  source : String
  acknowledged : Bool
  autoResolve : Bool
deriving DecidableEq, Repr

/-- `createAlert`: returns the constructed alert and the updated ring
buffer (`slice(-50)` keeps the last 50 when the push exceeds 50). -/
def createAlert (alerts : List Alert) (id : String) (now : Nat)
    (level : AlertLevel) (message source : String) : Alert × List Alert :=
  let fullAlert : Alert :=
    { id := id, level := level, message := message, timestamp := now,
      source := source, acknowledged := false,
      autoResolve := decide (level ≠ .emergency) }
  let pushed := alerts ++ [fullAlert]
  (fullAlert, if 50 < pushed.length then pushed.drop (pushed.length - 50) else pushed)

/-- The body of the 5-minute auto-resolve timeout: find the first alert
with the given id (`findIndex`) and set `acknowledged`; report whether an
alert was found. -/
def autoAcknowledge : List Alert → String → List Alert × Bool
  | [], _ => ([], false)
  | a :: rest, id =>
    if a.id = id then ({ a with acknowledged := true } :: rest, true)
    else
      let r := autoAcknowledge rest id
      (a :: r.1, r.2)

/-- The timeout is only scheduled for `autoResolve` alerts. -/
def autoAckScheduled (a : Alert) : Bool := a.autoResolve

section AlertLemmas

lemma autoAcknowledge_found (buf : List Alert) (id : String)
    (hmem : ∃ a ∈ buf, a.id = id) :
    (autoAcknowledge buf id).2 = true
    ∧ ∃ a ∈ (autoAcknowledge buf id).1, a.id = id ∧ a.acknowledged = true := by
  induction buf with
  | nil => simp at hmem
  | cons a rest ih =>
    by_cases ha : a.id = id
    · refine ⟨by simp [autoAcknowledge, ha], ?_⟩
      exact ⟨{ a with acknowledged := true }, by simp [autoAcknowledge, ha], ha, rfl⟩
    · have hmem' : ∃ b ∈ rest, b.id = id := by
        rcases hmem with ⟨b, hb, hid⟩
        rcases List.mem_cons.mp hb with hb1 | hb2
        · exact absurd (hb1 ▸ hid) ha
        · exact ⟨b, hb2, hid⟩
      rcases ih hmem' with ⟨h1, b, hb, hbid⟩
      refine ⟨by simp [autoAcknowledge, ha, h1], ?_⟩
      exact ⟨b, by simp [autoAcknowledge, ha]; exact Or.inr hb, hbid⟩

lemma autoAcknowledge_missing (buf : List Alert) (id : String)
    (hmiss : ∀ a ∈ buf, a.id ≠ id) :
    autoAcknowledge buf id = (buf, false) := by
  induction buf with
  | nil => rfl
  | cons a rest ih =>
    have ha : ¬ (a.id = id) := hmiss a (List.mem_cons_self a rest)
    have ih' := ih fun b hb => hmiss b (List.mem_cons_of_mem a hb)
    simp [autoAcknowledge, ha, ih']

end AlertLemmas

/-- C9 (amended): `createAlert` marks every alert whose level is not
`emergency` with `autoResolve = true` (and `emergency` alerts with
`autoResolve = false`, for which no auto-acknowledge timeout is
scheduled); when the 5-minute timeout fires, the alert is marked
`acknowledged` provided it is still present in the 50-entry ring buffer,
and an alert no longer in the buffer is left untouched (the buffer is
returned unchanged, so an evicted alert is never acknowledged). -/
theorem alert_auto_resolution (alerts : List Alert) (id : String) (now : Nat)
    (level : AlertLevel) (message source : String) :
    ((createAlert alerts id now level message source).1.autoResolve
        = decide (level ≠ .emergency))
    ∧ ((createAlert alerts id now level message source).1.acknowledged = false)
    ∧ (level = .emergency →
        autoAckScheduled (createAlert alerts id now level message source).1 = false)
    ∧ (∀ buf : List Alert, (∃ a ∈ buf, a.id = id) →
        (autoAcknowledge buf id).2 = true
        ∧ ∃ a ∈ (autoAcknowledge buf id).1, a.id = id ∧ a.acknowledged = true)
    ∧ (∀ buf : List Alert, (∀ a ∈ buf, a.id ≠ id) →
        autoAcknowledge buf id = (buf, false)) := by
  refine ⟨rfl, rfl, ?_, fun buf h => autoAcknowledge_found buf id h,
    fun buf h => autoAcknowledge_missing buf id h⟩
  intro hlev
  simp [createAlert, autoAckScheduled, hlev]

/-- Witness for C9 at a concrete input: a warning alert is created with
`autoResolve = true` and is acknowledged by the timeout while still in the
buffer; an emergency alert has no timeout scheduled. -/
theorem alert_auto_resolution_witness :
    ((createAlert [] "A" 0 .warning "m" "s").1.autoResolve = decide (AlertLevel.warning ≠ .emergency))
    ∧ (autoAcknowledge (createAlert [] "A" 0 .warning "m" "s").2 "A").2 = true
    ∧ autoAckScheduled (createAlert [] "B" 0 .emergency "m" "s").1 = false := by
  have h1 := alert_auto_resolution [] "A" 0 .warning "m" "s"
  have h2 := alert_auto_resolution [] "B" 0 .emergency "m" "s"
  refine ⟨h1.1, ?_, h2.2.2.1 rfl⟩
  exact (h1.2.2.2.1 (createAlert [] "A" 0 .warning "m" "s").2 (by decide)).1

/-- The concrete run refuting C9 as stated: one warning alert "A" followed
by 50 further alerts, which evicts "A" from the 50-entry ring buffer. -/
def evictedAlertBuffer : List Alert :=
  (List.range 50).foldl
    (fun acc k => (createAlert acc (toString k) 1 .info "m" "system").2)
    (createAlert [] "A" 0 .warning "stream error" "iss-position").2

set_option maxRecDepth 10000 in
/-- Counterexample to C9 as stated: the warning alert "A" (non-emergency,
`autoResolve = true`) is evicted from the ring buffer by 50 later alerts
before its 5-minute timeout fires, so the timeout's `findIndex` misses and
no alert is ever marked `acknowledged` — "A" never has
`acknowledged = true`, contradicting the claim that every non-emergency
alert is acknowledged once the timeout elapses. -/
theorem alert_evicted_never_acknowledged_counterexample :
    (createAlert [] "A" 0 .warning "stream error" "iss-position").1.level ≠ .emergency
    ∧ (createAlert [] "A" 0 .warning "stream error" "iss-position").1.autoResolve = true
    ∧ (∀ a ∈ evictedAlertBuffer, a.id ≠ "A")
    ∧ autoAcknowledge evictedAlertBuffer "A" = (evictedAlertBuffer, false) := by
  refine ⟨by decide, by decide, by decide, ?_⟩
  exact autoAcknowledge_missing evictedAlertBuffer "A" (by decide)

/-! ### Tab manager (src/unnamed/part_010, DynamicTabManager)

`switchToTab` throws for an unknown tab id, otherwise emits
`tab-switched` and triggers one immediate `updateTab`; `updateTab` emits
`tab-updated:<id>` with the data collected by `getTabData`, which reads
`getSystemHealth()` from the orchestrator and otherwise returns the
hard-coded placeholder implementations (`getLatestISSPosition` returns a
constant, `getActiveSatellites` returns `[]`).  Nothing in this path
starts, stops or touches the orchestrator's streams or data cache. -/

structure TabConfig where
  id : String
  name : String
  icon : String
  priority : Priority
  updateFrequency : Nat
  dataRequirements : List String
  alertEnabled : Bool
  healthMonitoring : Bool
deriving DecidableEq, Repr

/-- The eight tab configurations of `initializeTabConfigurations`. -/
def tabConfigs : List TabConfig :=
  [{ id := "dashboard", name := "Mission Overview", icon := "🏠",
     priority := .critical, updateFrequency := 1000,
     dataRequirements := ["system-health", "iss-position", "active-satellites"],
     alertEnabled := true, healthMonitoring := true },
   { id := "mission-control", name := "Mission Control", icon := "🎯",
     priority := .critical, updateFrequency := 2000,
     dataRequirements := ["iss-position", "telemetry"],
     alertEnabled := true, healthMonitoring := true },
   { id := "satellite-tracking", name := "Satellite Tracking", icon := "🛰️",
     priority := .high, updateFrequency := 5000,
     dataRequirements := ["active-satellites", "orbital-data", "tracking-data"],
     alertEnabled := true, healthMonitoring := true },
   { id := "mission-simulation", name := "Mission Simulation", icon := "💻",
     priority := .medium, updateFrequency := 10000,
     dataRequirements := ["simulation-data", "scenario-updates"],
     alertEnabled := false, healthMonitoring := false },
   { id := "mission-control-center", name := "Control Center (LIVE)", icon := "📺",
     priority := .critical, updateFrequency := 1000,
     dataRequirements := ["live-telemetry", "console-displays", "system-status"],
     alertEnabled := true, healthMonitoring := true },
   { id := "training-hub", name := "Training Hub (PRO)", icon := "🧠",
     priority := .medium, updateFrequency := 30000,
     dataRequirements := ["training-scenarios", "performance-metrics"],
     alertEnabled := false, healthMonitoring := false },
   { id := "resource-manager", name := "Resource Manager", icon := "📊",
     priority := .high, updateFrequency := 15000,
     dataRequirements := ["resource-allocation", "bandwidth-usage", "power-consumption"],
     alertEnabled := true, healthMonitoring := true },
   { id := "team-coordination", name := "Team Coordination (NEW)", icon := "👥",
     priority := .medium, updateFrequency := 20000,
     dataRequirements := ["team-status", "communication-logs"],
     alertEnabled := false, healthMonitoring := false }]

def findTabConfig (tabId : String) : Option TabConfig :=
  tabConfigs.find? (·.id = tabId)

/-- `getLatestISSPosition`: hard-coded placeholder value returned by the
tab manager (not read from the orchestrator's cache). -/
structure ISSPos where
  latitude : ℚ
  longitude : ℚ
  altitude : ℚ
  velocity : ℚ
deriving DecidableEq, Repr

def getLatestISSPosition : ISSPos :=
  { latitude := 41702/1000, longitude := -(76014/1000), altitude := 408,
    velocity := 766/100 }

/-- The data fields that `getTabData` collects for one tab (unknown
requirements are skipped by the switch). -/
inductive TabDataField where
  | systemHealth
  | issPosition (p : ISSPos)
  | satellites (sats : List String)
  | telemetry
  | resources
deriving DecidableEq, Repr

def getTabData (cfg : TabConfig) : List TabDataField :=
  cfg.dataRequirements.filterMap fun req =>
    if req = "system-health" then some .systemHealth
    else if req = "iss-position" then some (.issPosition getLatestISSPosition)
    else if req = "active-satellites" then some (.satellites [])
    else if req = "live-telemetry" then some .telemetry
    else if req = "resource-allocation" then some .resources
    else none

/-- The orchestrator-owned state visible to the tab manager: which stream
ids are active and the response cache. -/
structure OrchestratorStreams where
  activeStreams : List String
  dataCache : List (String × CachedData)
deriving DecidableEq, Repr

inductive TabAction where
  | tabSwitched (tabId : String)
  | tabUpdated (tabId : String) (data : List TabDataField)
  | streamStarted (streamId : String)
deriving DecidableEq, Repr

/-- `updateTab`: collect the tab's data and emit `tab-updated:<id>`. -/
def updateTab (tabId : String) : List TabAction :=
  match findTabConfig tabId with
  | none => []
  | some cfg => [.tabUpdated tabId (getTabData cfg)]

/-- `switchToTab`: throw for an unknown tab, otherwise emit `tab-switched`
and trigger one immediate `updateTab`.  The orchestrator's stream state is
returned unchanged: this code path never starts a stream and never reads
the data cache. -/
def switchToTab (orch : OrchestratorStreams) (tabId : String) :
    Except String (OrchestratorStreams × List TabAction) :=
  match findTabConfig tabId with
  | none => .error ("Unknown tab: " ++ tabId)
  | some cfg =>
    .ok (orch, .tabSwitched tabId :: updateTab cfg.id)

/-- Orchestrator state for the C6 run: stream "iss-position" is not
active, and the cache holds a fresh ISS payload from 2 s ago. -/
def c6CachedEntry : CachedData :=
  { data := fetchISSPositionData 98000 "live-iss-payload" true,
    timestamp := 98000, expiryTime := 398000 }

def c6Orchestrator : OrchestratorStreams :=
  { activeStreams := [], dataCache := [("iss-position", c6CachedEntry)] }

/-- C6: evaluation of `switchToTab("dashboard")` at the failing input.
The dashboard view requires the "iss-position" stream, which is inactive,
and a fresh cached payload exists; yet the call leaves the orchestrator's
stream state untouched (no stream is started — the trace contains no
`streamStarted` action and `activeStreams` is unchanged), and the data it
emits to the view carries the hard-coded placeholder
`getLatestISSPosition`, not the cached payload, contrary to the claim. -/
theorem switchToTab_starts_nothing_and_emits_placeholder :
    switchToTab c6Orchestrator "dashboard"
      = .ok (c6Orchestrator,
          [.tabSwitched "dashboard",
           .tabUpdated "dashboard"
             [.systemHealth, .issPosition getLatestISSPosition, .satellites []]])
    ∧ "iss-position" ∈
        ((findTabConfig "dashboard").map (·.dataRequirements)).getD []
    ∧ "iss-position" ∉ c6Orchestrator.activeStreams
    ∧ (∀ sid, TabAction.streamStarted sid
        ∉ [TabAction.tabSwitched "dashboard",
           TabAction.tabUpdated "dashboard"
             [.systemHealth, .issPosition getLatestISSPosition, .satellites []]])
    ∧ c6Orchestrator.dataCache = [("iss-position", c6CachedEntry)] := by
  refine ⟨rfl, by decide, by decide, fun sid => by simp, rfl⟩

/-- C10: when an event already has `maxListeners` listeners registered,
`EventEmitter.on` and `EventEmitter.prependListener` return without
registering: the listener registry is unchanged, and a rejected listener
(whose id was not already registered) is never invoked by a later
`emit` of that event. -/
theorem subscription_past_limit_is_rejected (s : EmitterState) (event : String)
    (h : Handler) (hfull : s.maxListeners ≤ (s.events event).length) :
    (s.on event h).events = s.events
    ∧ (s.prependListener event h).events = s.events
    ∧ (h.id ∉ (s.events event).map (·.id) →
        h.id ∉ invokedIds event
          (emitTrace ((s.on event h).events "error") event
            ((s.on event h).events event))) := by
  have hon : s.on event h = s := by
    simp [EmitterState.on, hfull]
  have hpre : s.prependListener event h = s := by
    simp [EmitterState.prependListener, hfull]
  refine ⟨by rw [hon], by rw [hpre], ?_⟩
  intro hmem
  rw [hon, invokedIds_emitTrace]
  exact hmem

/-- Concrete emitter for the C10 witness: one listener on "data",
`maxListeners = 1`. -/
def emitterAtLimit : EmitterState :=
  { events := fun e => if e = "data" then [⟨1, none⟩] else [], maxListeners := 1 }

/-- Witness for C10 at a concrete input: subscribing listener 2 to "data"
(already at the 1-listener limit) changes nothing and listener 2 is never
invoked. -/
theorem subscription_past_limit_is_rejected_witness :
    (emitterAtLimit.on "data" ⟨2, none⟩).events = emitterAtLimit.events
    ∧ (emitterAtLimit.prependListener "data" ⟨2, none⟩).events = emitterAtLimit.events
    ∧ (2 : Nat) ∉ invokedIds "data"
        (emitTrace ((emitterAtLimit.on "data" ⟨2, none⟩).events "error") "data"
          ((emitterAtLimit.on "data" ⟨2, none⟩).events "data")) := by
  have h := subscription_past_limit_is_rejected emitterAtLimit "data" ⟨2, none⟩
    (by simp [emitterAtLimit])
  exact ⟨h.1, h.2.1, h.2.2 (by simp [emitterAtLimit])⟩

end Nebula
